import Mathlib

/-!
Shallow embedding of the animated scene component `src/components/CubeScene.tsx`
(the full-featured variant with the arc pool and shimmer effect).

Numeric conventions: quantities the component manipulates with plain
additions, comparisons and fixed rational constants (progress, speed,
opacity, metalness, color channels, viewport sizes) are embedded as `ℚ`;
geometric positions, which involve `Math.sqrt`, are embedded as real-valued
vectors.  The host library's transcendental `Math.sin` is abstracted as a
function parameter of the shimmer pass.  Randomness (`Math.random()` draws,
the shuffled index selection) is made explicit as parameters.
-/

namespace CubeScene

/-- A 3-D vector with real components, modelling `THREE.Vector3`. -/
structure Vec3 where
  x : ℝ
  y : ℝ
  z : ℝ

/-- Componentwise vector addition (`Vector3.add` / `addVectors`). -/
noncomputable def Vec3.add (a b : Vec3) : Vec3 :=
  ⟨a.x + b.x, a.y + b.y, a.z + b.z⟩

/-- Scalar multiplication (`Vector3.multiplyScalar`). -/
noncomputable def Vec3.smul (c : ℝ) (a : Vec3) : Vec3 :=
  ⟨c * a.x, c * a.y, c * a.z⟩

/-- Euclidean distance (`Vector3.distanceTo`). -/
noncomputable def Vec3.distanceTo (a b : Vec3) : ℝ :=
  Real.sqrt ((a.x - b.x) ^ 2 + (a.y - b.y) ^ 2 + (a.z - b.z) ^ 2)

/-- The quadratic Bezier polynomial evaluated by
`THREE.QuadraticBezierCurve3.getPoint` on each coordinate. -/
noncomputable def quadraticBezier (t p0 p1 p2 : ℝ) : ℝ :=
  (1 - t) ^ 2 * p0 + 2 * (1 - t) * t * p1 + t ^ 2 * p2

/-- `QuadraticBezierCurve3.getPoint t` for the curve through `v0`, `v1`, `v2`. -/
noncomputable def curveGetPoint (v0 v1 v2 : Vec3) (t : ℝ) : Vec3 :=
  ⟨quadraticBezier t v0.x v1.x v2.x, quadraticBezier t v0.y v1.y v2.y,
    quadraticBezier t v0.z v1.z v2.z⟩

/-- `Curve.getPoints divisions`: samples `getPoint (d / divisions)` for
`d = 0, …, divisions`, so the result holds `divisions + 1` points. -/
noncomputable def curveGetPoints (v0 v1 v2 : Vec3) (divisions : ℕ) : List Vec3 :=
  (List.range (divisions + 1)).map fun (d : ℕ) =>
    curveGetPoint v0 v1 v2 ((d : ℝ) / (divisions : ℝ))

/-- A grid shape as seen by the arc system: its index in the `shapes` array
and the position assigned in the hex-grid setup loop. -/
structure ShapeRef where
  idx : ℕ
  position : Vec3

/-- Random draws consumed by one `createArc()` call: the start-shape index,
the end-shape index (the source rejection-samples until it differs from the
start), and the `Math.random()` draw used for the speed. -/
structure ArcChoice where
  startIdx : ℕ
  endIdx : ℕ
  speedRand : ℚ
deriving DecidableEq

/-- State of an arc's `THREE.Line`: the point list last written to its
`BufferGeometry` and its `LineBasicMaterial` opacity. -/
structure ArcLine where
  points : List Vec3
  opacity : ℚ

/-- The source's `Arc` record (CubeScene.tsx lines 65-74). -/
structure Arc where
  line : ArcLine
  progress : ℚ
  speed : ℚ
  start : Vec3
  «end» : Vec3
  control : Vec3
  active : Bool
  targetShape : Option ℕ

/-- `createArc()` (lines 94-135): reads the chosen start and end shapes,
forms the control point by raising the start-end midpoint along y by half the
start-end distance, samples the full curve with `getPoints(50)`, and returns
a fresh arc with `progress = 0`, `speed = 0.02 + Math.random() * 0.03` and
line opacity `0.5`, targeting the end shape. -/
noncomputable def createArc (shapes : List ShapeRef) (c : ArcChoice) : Arc :=
  let startShape := shapes.getD c.startIdx ⟨0, ⟨0, 0, 0⟩⟩
  let endShape := shapes.getD c.endIdx ⟨0, ⟨0, 0, 0⟩⟩
  let start := startShape.position
  let stop := endShape.position
  let mid := Vec3.smul (1 / 2) (Vec3.add start stop)
  let height := start.distanceTo stop * (1 / 2)
  let control := Vec3.add mid ⟨0, height, 0⟩
  let points := curveGetPoints start control stop 50
  { line := { points := points, opacity := 1 / 2 }
    progress := 0
    speed := 1 / 50 + c.speedRand * (3 / 100)
    start := start
    «end» := stop
    control := control
    active := true
    targetShape := some endShape.idx }

/-- Claim C6: `createArc()` invoked with start shape position `(0,0,0)` and
end shape position `(4,0,0)` produces the quadratic Bezier control point
`(2, 2, 0)`: the start-end midpoint raised along y by half the start-end
distance `4 * 0.5 = 2`. -/
theorem createArc_control_point (r : ℚ) :
    (createArc [⟨0, ⟨0, 0, 0⟩⟩, ⟨1, ⟨4, 0, 0⟩⟩] ⟨0, 1, r⟩).control = ⟨2, 2, 0⟩ := by
  have hd : Vec3.distanceTo ⟨0, 0, 0⟩ ⟨4, 0, 0⟩ = 4 := by
    show Real.sqrt (((0:ℝ) - 4) ^ 2 + ((0:ℝ) - 0) ^ 2 + ((0:ℝ) - 0) ^ 2) = 4
    rw [show ((0:ℝ) - 4) ^ 2 + ((0:ℝ) - 0) ^ 2 + ((0:ℝ) - 0) ^ 2 = 4 ^ 2 by norm_num]
    exact Real.sqrt_sq (by norm_num)
  simp [createArc, List.getD, Vec3.add, Vec3.smul, hd]
  norm_num

/-- The `try`-block body of the per-arc update for an in-flight arc
(lines 288-302): recompute the curve's `getPoints(5)` sample (6 points), take
the prefix of length `max(2, Math.floor(points.length * progress))`, and if
at least two sampled points are available — in this embedding every sampled
point is a well-formed vector, so the source's `p && p.x !== undefined`
check always passes — write them to the line's geometry and set the material
opacity to `min(1, 2 * (1 - progress)) * 0.5`; otherwise leave the line
unchanged. -/
noncomputable def updateArcGeometry (arc : Arc) : ArcLine :=
  let points := curveGetPoints arc.start arc.control arc.«end» 5
  let numPoints : ℕ := max 2 (⌊(points.length : ℚ) * arc.progress⌋.toNat)
  let visiblePoints := points.take numPoints
  if 2 ≤ visiblePoints.length then
    { points := visiblePoints, opacity := min 1 (2 * (1 - arc.progress)) * (1 / 2) }
  else
    arc.line

/-- One selected-slot update from the frame callback (lines 274-309), with
the fallible geometry recompute abstracted: `geomTry` returns the line's new
state, or `Except.error` modelling an exception thrown inside the source's
`try` block by the rendering library.  Returns the slot's new arc, the
indices of target shapes passed to `startShimmerEffect`, and the lines passed
to `disposeArc`. -/
noncomputable def updateSelectedArcWith (shapes : List ShapeRef) (c : ArcChoice)
    (geomTry : Arc → Except String ArcLine) (arc : Arc) :
    Arc × List ℕ × List ArcLine :=
  if arc.active then
    let a := { arc with progress := arc.progress + arc.speed }
    if 1 ≤ a.progress then
      (createArc shapes c, a.targetShape.toList, [a.line])
    else
      match geomTry a with
      | .ok newLine => ({ a with line := newLine }, [], [])
      | .error _ => (createArc shapes c, [], [a.line])
  else (arc, [], [])

/-- The per-slot update as the source actually runs it: the translated `try`
body is total, so the geometry recompute always succeeds. -/
noncomputable def updateSelectedArc (shapes : List ShapeRef) (c : ArcChoice) (arc : Arc) :
    Arc × List ℕ × List ArcLine :=
  updateSelectedArcWith shapes c (fun a => .ok (updateArcGeometry a)) arc

/-- One step of the frame pass's `forEach` over the selected indices. -/
noncomputable def arcFrameStep (shapes : List ShapeRef)
    (geomTry : Arc → Except String ArcLine)
    (st : List Arc × List ℕ × List ArcLine) (ic : ℕ × ArcChoice) :
    List Arc × List ℕ × List ArcLine :=
  match st.1[ic.1]? with
  | none => st
  | some arc =>
      let r := updateSelectedArcWith shapes ic.2 geomTry arc
      (st.1.set ic.1 r.1, st.2.1 ++ r.2.1, st.2.2 ++ r.2.2)

/-- One frame's arc-update pass (lines 262-310): each selected index (the
shuffled 30% prefix, supplied here together with the `createArc` randomness
consumed if that slot gets replaced) is updated in place via `List.set`. -/
noncomputable def arcFramePassWith (shapes : List ShapeRef)
    (geomTry : Arc → Except String ArcLine) (sel : List (ℕ × ArcChoice))
    (arcs : List Arc) : List Arc × List ℕ × List ArcLine :=
  sel.foldl (arcFrameStep shapes geomTry) (arcs, [], [])

/-- `maxArcs` (line 78): the fixed size of the arc pool. -/
def maxArcs : ℕ := 7

/-- The arc-pool initialization loop (lines 160-162). -/
noncomputable def initArcs (shapes : List ShapeRef) (cs : ℕ → ArcChoice) : List Arc :=
  (List.range maxArcs).map fun i => createArc shapes (cs i)

theorem arcFrameStep_length (shapes : List ShapeRef)
    (geomTry : Arc → Except String ArcLine)
    (st : List Arc × List ℕ × List ArcLine) (ic : ℕ × ArcChoice) :
    ((arcFrameStep shapes geomTry st ic).1).length = st.1.length := by
  unfold arcFrameStep
  cases h : st.1[ic.1]? with
  | none => rfl
  | some arc => simp

theorem arcFramePassWith_foldl_length (shapes : List ShapeRef)
    (geomTry : Arc → Except String ArcLine) (sel : List (ℕ × ArcChoice)) :
    ∀ st : List Arc × List ℕ × List ArcLine,
      ((sel.foldl (arcFrameStep shapes geomTry) st).1).length = st.1.length := by
  induction sel with
  | nil => intro st; rfl
  | cons ic sel ih =>
      intro st
      rw [List.foldl_cons, ih, arcFrameStep_length]

theorem arc_pool_fold_length (shapes : List ShapeRef)
    (geomTry : Arc → Except String ArcLine)
    (frames : List (List (ℕ × ArcChoice))) :
    ∀ arcs : List Arc,
      (frames.foldl (fun arcs sel => (arcFramePassWith shapes geomTry sel arcs).1)
          arcs).length = arcs.length := by
  induction frames with
  | nil => intro arcs; rfl
  | cons sel frames ih =>
      intro arcs
      rw [List.foldl_cons, ih, arcFramePassWith]
      exact arcFramePassWith_foldl_length shapes geomTry sel (arcs, [], [])

/-- Claim C2: starting from the initialized pool, any number of frame-update
passes — each replacing completed or failed arcs in place by freshly created
ones — leaves the arc pool at exactly `maxArcs = 7` arcs. -/
theorem arc_pool_size_invariant (shapes : List ShapeRef)
    (geomTry : Arc → Except String ArcLine) (cs : ℕ → ArcChoice)
    (frames : List (List (ℕ × ArcChoice))) :
    (frames.foldl (fun arcs sel => (arcFramePassWith shapes geomTry sel arcs).1)
        (initArcs shapes cs)).length = maxArcs := by
  rw [arc_pool_fold_length]
  simp [initArcs]

/-- Claim C7: per selected update, an active arc's progress is advanced by
its fixed speed (hence never decreases, the speed being nonnegative) until
the incremented progress crosses 1, at which point the slot is replaced by a
freshly created arc; freshly created arcs start at progress 0 with a speed
drawn from `[0.02, 0.05)` via `0.02 + Math.random() * 0.03`. -/
theorem arc_progress_monotone :
    (∀ (shapes : List ShapeRef) (c : ArcChoice) (arc : Arc),
      arc.active = true → 0 ≤ arc.speed →
        (arc.progress + arc.speed < 1 →
          (updateSelectedArc shapes c arc).1.progress = arc.progress + arc.speed ∧
            arc.progress ≤ (updateSelectedArc shapes c arc).1.progress) ∧
        (1 ≤ arc.progress + arc.speed →
          (updateSelectedArc shapes c arc).1 = createArc shapes c)) ∧
    (∀ (shapes : List ShapeRef) (c : ArcChoice),
      (createArc shapes c).progress = 0 ∧
      (0 ≤ c.speedRand → c.speedRand < 1 →
        1 / 50 ≤ (createArc shapes c).speed ∧ (createArc shapes c).speed < 1 / 20)) := by
  constructor
  · intro shapes c arc hact hs
    constructor
    · intro hlt
      have hnot : ¬ (1 : ℚ) ≤ arc.progress + arc.speed := not_le.mpr hlt
      simp [updateSelectedArc, updateSelectedArcWith, hact, hnot]
      linarith
    · intro hge
      simp [updateSelectedArc, updateSelectedArcWith, hact, hge]
  · intro shapes c
    refine ⟨rfl, ?_⟩
    intro h0 h1
    constructor
    · show (1 : ℚ) / 50 ≤ 1 / 50 + c.speedRand * (3 / 100)
      nlinarith
    · show (1 : ℚ) / 50 + c.speedRand * (3 / 100) < 1 / 20
      nlinarith

/-- Claim C7 witness: the monotone-update part at a concrete active arc with
progress `1/4` and speed `1/25`, and the creation bounds at a concrete draw
`Math.random() = 1/2`. -/
theorem arc_progress_monotone_witness :
    ((updateSelectedArc []
        ⟨0, 1, 0⟩
        { line := { points := [], opacity := 1 / 2 }, progress := 1 / 4,
          speed := 1 / 25, start := ⟨0, 0, 0⟩, «end» := ⟨0, 0, 0⟩,
          control := ⟨0, 0, 0⟩, active := true, targetShape := none }).1.progress
      = 1 / 4 + 1 / 25) ∧
    (1 / 50 ≤ (createArc [] ⟨0, 1, 1 / 2⟩).speed ∧
      (createArc [] ⟨0, 1, 1 / 2⟩).speed < 1 / 20) := by
  refine ⟨?_, ?_⟩
  · exact ((arc_progress_monotone.1 [] ⟨0, 1, 0⟩ _ rfl (by norm_num)).1 (by norm_num)).1
  · exact (arc_progress_monotone.2 [] ⟨0, 1, 1 / 2⟩).2 (by norm_num) (by norm_num)

/-- Claim C5: a failure raised while recomputing an arc's visible geometry
(`geomTry` returning `Except.error`, modelling an exception thrown inside the
`try` block) is absorbed by the `catch` branch: the offending arc's line is
disposed, a freshly created arc (progress 0) takes its slot, and the update
returns an ordinary result — its type carries no error, so nothing propagates
to the frame callback's caller. -/
theorem arc_update_failure_contained (shapes : List ShapeRef) (c : ArcChoice)
    (e : String) (arc : Arc) (hact : arc.active = true)
    (hlt : arc.progress + arc.speed < 1) :
    updateSelectedArcWith shapes c (fun _ => .error e) arc
        = (createArc shapes c, [], [arc.line]) ∧
    (createArc shapes c).progress = 0 := by
  have hnot : ¬ (1 : ℚ) ≤ arc.progress + arc.speed := not_le.mpr hlt
  refine ⟨?_, rfl⟩
  simp [updateSelectedArcWith, hact, hnot]

/-- Claim C5 witness: the failure-containment theorem at a concrete arc and a
concrete error message. -/
theorem arc_update_failure_contained_witness :
    updateSelectedArcWith [] ⟨0, 1, 0⟩ (fun _ => .error "degenerate points")
        { line := { points := [], opacity := 1 / 2 }, progress := 1 / 4,
          speed := 1 / 25, start := ⟨0, 0, 0⟩, «end» := ⟨0, 0, 0⟩,
          control := ⟨0, 0, 0⟩, active := true, targetShape := none }
      = (createArc [] ⟨0, 1, 0⟩, [],
          [{ points := [], opacity := 1 / 2 }]) := by
  exact (arc_update_failure_contained [] ⟨0, 1, 0⟩ "degenerate points" _ rfl
    (by norm_num)).1

theorem curveGetPoints_length (v0 v1 v2 : Vec3) (n : ℕ) :
    (curveGetPoints v0 v1 v2 n).length = n + 1 := by
  simp only [curveGetPoints, List.length_map, List.length_range]

theorem updateArcGeometry_spec (arc : Arc) (h0 : 0 ≤ arc.progress)
    (hlt : arc.progress < 1) :
    (updateArcGeometry arc).points.length
        = max 2 (⌊(6 : ℚ) * arc.progress⌋.toNat) ∧
    (updateArcGeometry arc).opacity
        = min 1 (2 * (1 - arc.progress)) * (1 / 2) := by
  have hlen6 : (curveGetPoints arc.start arc.control arc.«end» 5).length = 6 :=
    curveGetPoints_length _ _ _ 5
  have hcast : ((curveGetPoints arc.start arc.control arc.«end» 5).length : ℚ) = 6 := by
    rw [hlen6]; norm_num
  have hfloor_lt : ⌊(6 : ℚ) * arc.progress⌋ < 6 := by
    rw [Int.floor_lt]; push_cast; linarith
  have hfloor_nonneg : 0 ≤ ⌊(6 : ℚ) * arc.progress⌋ := by
    apply Int.floor_nonneg.mpr; positivity
  have htake : ((curveGetPoints arc.start arc.control arc.«end» 5).take
      (max 2 (⌊(6 : ℚ) * arc.progress⌋).toNat)).length
        = max 2 (⌊(6 : ℚ) * arc.progress⌋).toNat := by
    rw [List.length_take, hlen6]; omega
  have hcond : 2 ≤ ((curveGetPoints arc.start arc.control arc.«end» 5).take
      (max 2 (⌊(6 : ℚ) * arc.progress⌋).toNat)).length := by
    rw [htake]; omega
  simp only [updateArcGeometry]
  rw [hcast, if_pos hcond]
  exact ⟨htake, rfl⟩

theorem updateSelectedArc_inflight (shapes : List ShapeRef) (c : ArcChoice)
    (arc : Arc) (hact : arc.active = true)
    (hlt : arc.progress + arc.speed < 1) :
    (updateSelectedArc shapes c arc).1
      = { arc with
          progress := arc.progress + arc.speed,
          line := updateArcGeometry
            { arc with progress := arc.progress + arc.speed } } := by
  have hnot : ¬ (1 : ℚ) ≤ arc.progress + arc.speed := not_le.mpr hlt
  simp [updateSelectedArc, updateSelectedArcWith, hact, hnot]

/-- Concrete in-flight arc whose incremented progress is `1/2`, used to
exercise the visible-prefix recomputation. -/
noncomputable def sampleArc : Arc :=
  { line := { points := [], opacity := 1 / 2 }
    progress := 9 / 20
    speed := 1 / 20
    start := ⟨0, 0, 0⟩
    «end» := ⟨4, 0, 0⟩
    control := ⟨2, 2, 0⟩
    active := true
    targetShape := some 1 }

/-- Claim C1 fails as stated: the source's `curve.getPoints(5)` yields 6
sampled points, so at incremented progress `1/2` the recomputed visible
prefix holds `max(2, Math.floor(6 * progress)) = 3` points, not the claimed
`max(2, floor(5 * progress)) = 2`. -/
theorem visible_prefix_count_counterexample :
    ¬ ((updateSelectedArc [] ⟨0, 0, 0⟩ sampleArc).1.line.points.length
        = max 2 (⌊(5 : ℚ) * (sampleArc.progress + sampleArc.speed)⌋.toNat)) := by
  have h := (updateArcGeometry_spec
    { sampleArc with progress := sampleArc.progress + sampleArc.speed }
    (by norm_num [sampleArc]) (by norm_num [sampleArc])).1
  rw [updateSelectedArc_inflight [] ⟨0, 0, 0⟩ sampleArc rfl (by norm_num [sampleArc])]
  dsimp only at h ⊢
  rw [h]
  norm_num [sampleArc]
  decide

/-- Claim C1 (amended): for every active arc updated in a frame with
incremented progress still below 1, the recomputed visible prefix of the
arc's curve contains exactly `max(2, Math.floor(6 * progress))` sampled
points — `curve.getPoints(5)` returns 6 samples, one more than the division
count — and the arc line's opacity is set to
`min(1, 2 * (1 - progress)) * 0.5`. -/
theorem arc_update_visible_prefix (shapes : List ShapeRef) (c : ArcChoice)
    (arc : Arc) (hact : arc.active = true) (h0 : 0 ≤ arc.progress + arc.speed)
    (hlt : arc.progress + arc.speed < 1) :
    (updateSelectedArc shapes c arc).1.line.points.length
        = max 2 (⌊(6 : ℚ) * (arc.progress + arc.speed)⌋.toNat) ∧
    (updateSelectedArc shapes c arc).1.line.opacity
        = min 1 (2 * (1 - (arc.progress + arc.speed))) * (1 / 2) := by
  have h := updateArcGeometry_spec
    { arc with progress := arc.progress + arc.speed } h0 hlt
  rw [updateSelectedArc_inflight shapes c arc hact hlt]
  exact h

/-- Claim C1 witness: the amended count-and-opacity theorem at the concrete
arc `sampleArc` (incremented progress `1/2`): 3 visible points and opacity
`1/2`. -/
theorem arc_update_visible_prefix_witness :
    (updateSelectedArc [] ⟨0, 0, 0⟩ sampleArc).1.line.points.length
        = max 2 (⌊(6 : ℚ) * (sampleArc.progress + sampleArc.speed)⌋.toNat) ∧
    (updateSelectedArc [] ⟨0, 0, 0⟩ sampleArc).1.line.opacity
        = min 1 (2 * (1 - (sampleArc.progress + sampleArc.speed))) * (1 / 2) := by
  exact arc_update_visible_prefix [] ⟨0, 0, 0⟩ sampleArc rfl
    (by norm_num [sampleArc]) (by norm_num [sampleArc])

/-- An RGB color triple, modelling `THREE.Color` (channel values as exact
rationals). -/
structure Color where
  r : ℚ
  g : ℚ
  b : ℚ
deriving DecidableEq

/-- The mutable state of a shape's `THREE.MeshStandardMaterial` that the
shimmer effect touches, plus the roughness it leaves alone. -/
structure MeshStandardMaterial where
  color : Color
  metalness : ℚ
  roughness : ℚ
  emissive : Color
deriving DecidableEq

/-- The material created for the grid shapes (lines 23-28): color `0x888888`,
metalness 0.9, roughness 0.1, emissive black. -/
def initialMaterial : MeshStandardMaterial :=
  { color := ⟨136 / 255, 136 / 255, 136 / 255⟩
    metalness := 9 / 10
    roughness := 1 / 10
    emissive := ⟨0, 0, 0⟩ }

/-- The source's `ShimmerAnimation` record (lines 138-144): the target
shape's identity, the progress counter, and the snapshot of the material's
color, metalness and emissive taken at shimmer start.  Every grid shape
shares the one material created at line 23 (reused for each mesh at line
50), so `anim.shape.material` is the same shared instance for every record;
the shape field remains only the mesh's identity. -/
structure ShimmerAnimation where
  shape : ℕ
  progress : ℚ
  originalColor : Color
  originalMetalness : ℚ
  originalEmissive : Color
deriving DecidableEq

/-- `startShimmerEffect(shape)` (lines 148-157): snapshot the current values
of the shared material (the one every grid shape carries) and push a record
with progress 0. -/
def startShimmerEffect (material : MeshStandardMaterial)
    (anims : List ShimmerAnimation) (shape : ℕ) : List ShimmerAnimation :=
  anims ++ [{ shape := shape
              progress := 0
              originalColor := material.color
              originalMetalness := material.metalness
              originalEmissive := material.emissive }]

/-- One record's update inside the shimmer loop (lines 313-340): advance
progress by 0.05, write the shimmer emissive/metalness/color to the shape's
material — which is the one material instance shared by all grid shapes, so
every record's write mutates the same material — then, if progress reached
1, restore the snapshotted values and drop the record.  `sinTwoPi p`
abstracts the host library's transcendental `Math.sin(p * Math.PI * 2)`.
The accumulator pairs the list of records kept so far (the records after
this one, the loop running from the last index down) with the current state
of the shared material. -/
def shimmerStep (sinTwoPi : ℚ → ℚ) (anim : ShimmerAnimation)
    (acc : List ShimmerAnimation × MeshStandardMaterial) :
    List ShimmerAnimation × MeshStandardMaterial :=
  let anim' := { anim with progress := anim.progress + 1 / 20 }
  let material := acc.2
  let shimmerIntensity := sinTwoPi anim'.progress * (1 / 2) + 1 / 2
  let material' := { material with
                     emissive := ⟨1 * shimmerIntensity, (1 / 2) * shimmerIntensity,
                       (1 / 5) * shimmerIntensity⟩,
                     metalness := anim.originalMetalness + (1 / 10) * shimmerIntensity,
                     color := ⟨1, (4 / 5) * (1 - shimmerIntensity) + 1 / 2,
                       (4 / 5) * (1 - shimmerIntensity) + 1 / 5⟩ }
  if 1 ≤ anim'.progress then
    (acc.1,
      { material' with
        emissive := anim.originalEmissive,
        metalness := anim.originalMetalness,
        color := anim.originalColor })
  else
    (anim' :: acc.1, material')

/-- One full shimmer pass of the frame callback: the source iterates `i` from
`shimmerAnimations.length - 1` down to `0`, updating each record once and
splicing out completed ones; functionally this is a right fold that rebuilds
the kept records in order while threading the shared material. -/
def shimmerPass (sinTwoPi : ℚ → ℚ) (anims : List ShimmerAnimation)
    (material : MeshStandardMaterial) :
    List ShimmerAnimation × MeshStandardMaterial :=
  anims.foldr (shimmerStep sinTwoPi) ([], material)

/-- The shimmer portion of one frame, as a step on (records, material). -/
def shimmerFrame (sinTwoPi : ℚ → ℚ)
    (st : List ShimmerAnimation × MeshStandardMaterial) :
    List ShimmerAnimation × MeshStandardMaterial :=
  shimmerPass sinTwoPi st.1 st.2

theorem shimmerStep_kept (sinTwoPi : ℚ → ℚ) (a : ShimmerAnimation)
    (acc : List ShimmerAnimation × MeshStandardMaterial) :
    (shimmerStep sinTwoPi a acc).1
      = if 1 ≤ a.progress + 1 / 20 then acc.1
        else { a with progress := a.progress + 1 / 20 } :: acc.1 := by
  simp only [shimmerStep]
  by_cases hp : (1 : ℚ) ≤ a.progress + 1 / 20
  · rw [if_pos hp, if_pos hp]
  · rw [if_neg hp, if_neg hp]

theorem shimmerStep_restore (sinTwoPi : ℚ → ℚ) (a : ShimmerAnimation)
    (acc : List ShimmerAnimation × MeshStandardMaterial)
    (hp : 1 ≤ a.progress + 1 / 20) :
    shimmerStep sinTwoPi a acc
      = (acc.1,
         { color := a.originalColor
           metalness := a.originalMetalness
           roughness := acc.2.roughness
           emissive := a.originalEmissive }) := by
  simp only [shimmerStep]
  rw [if_pos hp]

/-- Claim C3: a shimmer record whose incremented progress reaches or exceeds
1 in a pass, under the claim's no-concurrent-mutation assumption — since all
grid shapes share the one material, this means the record is the only active
one — has the pass restore the shared material's color, metalness and
emissive exactly to the values snapshotted at shimmer start, and remove the
record from the active list. -/
theorem shimmer_restores_original (sinTwoPi : ℚ → ℚ)
    (anim : ShimmerAnimation) (material : MeshStandardMaterial)
    (hdone : 1 ≤ anim.progress + 1 / 20) :
    ((shimmerPass sinTwoPi [anim] material).2).color = anim.originalColor ∧
    ((shimmerPass sinTwoPi [anim] material).2).metalness
        = anim.originalMetalness ∧
    ((shimmerPass sinTwoPi [anim] material).2).emissive
        = anim.originalEmissive ∧
    (shimmerPass sinTwoPi [anim] material).1 = [] := by
  unfold shimmerPass
  simp only [List.foldr_cons, List.foldr_nil]
  rw [shimmerStep_restore sinTwoPi anim ([], material) hdone]
  exact ⟨rfl, rfl, rfl, rfl⟩

/-- Zero stand-in for the abstracted `Math.sin`-derived function, used to
instantiate shimmer theorems at concrete inputs. -/
def sinZero : ℚ → ℚ := fun _ => 0

/-- A concrete shimmer record one pass away from completion. -/
def shimmerRec : ShimmerAnimation :=
  { shape := 0
    progress := 19 / 20
    originalColor := ⟨1, 0, 0⟩
    originalMetalness := 3 / 4
    originalEmissive := ⟨0, 1, 0⟩ }

/-- Claim C3 witness: the restoration theorem at a single concrete record,
one pass from completion, over the shapes' shared initial material. -/
theorem shimmer_restores_original_witness :
    ((shimmerPass sinZero [shimmerRec] initialMaterial).2).color
        = shimmerRec.originalColor ∧
    ((shimmerPass sinZero [shimmerRec] initialMaterial).2).metalness
        = shimmerRec.originalMetalness ∧
    ((shimmerPass sinZero [shimmerRec] initialMaterial).2).emissive
        = shimmerRec.originalEmissive ∧
    (shimmerPass sinZero [shimmerRec] initialMaterial).1 = [] := by
  exact shimmer_restores_original sinZero shimmerRec initialMaterial
    (by norm_num [shimmerRec])

theorem shimmerPass_singleton_active (sinTwoPi : ℚ → ℚ) (a : ShimmerAnimation)
    (material : MeshStandardMaterial) (h : a.progress + 1 / 20 < 1) :
    (shimmerPass sinTwoPi [a] material).1
      = [{ a with progress := a.progress + 1 / 20 }] := by
  unfold shimmerPass
  simp only [List.foldr_cons, List.foldr_nil]
  rw [shimmerStep_kept, if_neg (not_le.mpr h)]

theorem shimmerPass_singleton_complete (sinTwoPi : ℚ → ℚ)
    (a : ShimmerAnimation) (material : MeshStandardMaterial)
    (h : 1 ≤ a.progress + 1 / 20) :
    (shimmerPass sinTwoPi [a] material).1 = [] := by
  unfold shimmerPass
  simp only [List.foldr_cons, List.foldr_nil]
  rw [shimmerStep_kept, if_pos h]

/-- Claim C10: a shimmer record starting at progress 0 advances by exactly
0.05 per frame-update pass, so under exact arithmetic it is still active
(with progress k/20) after every pass k < 20 and is removed by the 20th
pass, when its progress reaches 1: no shimmer record stays active
indefinitely. -/
theorem shimmer_terminates_in_twenty (sinTwoPi : ℚ → ℚ)
    (material : MeshStandardMaterial) (a : ShimmerAnimation)
    (h0 : a.progress = 0) :
    (∀ k, k < 20 →
      ((shimmerFrame sinTwoPi)^[k] ([a], material)).1
        = [{ a with progress := (k : ℚ) / 20 }]) ∧
    ((shimmerFrame sinTwoPi)^[20] ([a], material)).1 = [] := by
  have aux : ∀ k, k ≤ 19 →
      ((shimmerFrame sinTwoPi)^[k] ([a], material)).1
        = [{ a with progress := (k : ℚ) / 20 }] := by
    intro k
    induction k with
    | zero =>
        intro _
        rw [Function.iterate_zero_apply]
        obtain ⟨sh, p, c, m, e⟩ := a
        simp only at h0
        rw [h0]
        norm_num
    | succ k ih =>
        intro hk
        have hk19 : k ≤ 19 := by omega
        have hcur := ih hk19
        rw [Function.iterate_succ_apply']
        show (shimmerPass sinTwoPi
            ((shimmerFrame sinTwoPi)^[k] ([a], material)).1
            ((shimmerFrame sinTwoPi)^[k] ([a], material)).2).1 = _
        rw [hcur]
        rw [shimmerPass_singleton_active sinTwoPi _ _
          (by
            show (k : ℚ) / 20 + 1 / 20 < 1
            have hk20 : (k : ℚ) ≤ 18 := by
              have : k ≤ 18 := by omega
              exact_mod_cast this
            linarith)]
        have harith : (k : ℚ) / 20 + 1 / 20 = ((k + 1 : ℕ) : ℚ) / 20 := by
          push_cast
          ring
        rw [harith]
  refine ⟨fun k hk => aux k (by omega), ?_⟩
  have h19 := aux 19 (by omega)
  rw [show (20 : ℕ) = 19 + 1 from rfl, Function.iterate_succ_apply']
  show (shimmerPass sinTwoPi
      ((shimmerFrame sinTwoPi)^[19] ([a], material)).1
      ((shimmerFrame sinTwoPi)^[19] ([a], material)).2).1 = _
  rw [h19]
  exact shimmerPass_singleton_complete sinTwoPi _ _ (by norm_num)

/-- A concrete shimmer record at progress 0. -/
def shimmerRecStart : ShimmerAnimation :=
  { shape := 0
    progress := 0
    originalColor := ⟨136 / 255, 136 / 255, 136 / 255⟩
    originalMetalness := 9 / 10
    originalEmissive := ⟨0, 0, 0⟩ }

/-- Claim C10 witness: iterating the shimmer pass 20 times on a concrete
fresh record empties the active list, while 19 passes leave it active. -/
theorem shimmer_terminates_in_twenty_witness :
    ((shimmerFrame sinZero)^[19] ([shimmerRecStart], initialMaterial)).1
        = [{ shimmerRecStart with progress := (19 : ℚ) / 20 }] ∧
    ((shimmerFrame sinZero)^[20] ([shimmerRecStart], initialMaterial)).1
        = [] := by
  refine ⟨?_, ?_⟩
  · have h := (shimmer_terminates_in_twenty sinZero initialMaterial
      shimmerRecStart rfl).1 19 (by omega)
    exact_mod_cast h
  · exact (shimmer_terminates_in_twenty sinZero initialMaterial
      shimmerRecStart rfl).2

/-- The hex-grid spacing `radius = 2.5` (line 39). -/
noncomputable def radius : ℝ := 2.5

/-- `gridSize = 5` (line 40). -/
def gridSize : ℤ := 5

/-- The axial coordinate pairs enumerated by the hex-grid setup loop (lines
43-44): `q` runs over `[-g, g]` and, for each `q`, `r` runs over
`[max(-g, -q-g), min(g, -q+g)]`. -/
def hexCoords (g : ℤ) : List (ℤ × ℤ) :=
  (List.range (2 * g + 1).toNat).flatMap fun qi =>
    let q : ℤ := -g + qi
    let lo : ℤ := max (-g) (-q - g)
    let hi : ℤ := min g (-q + g)
    (List.range (hi - lo + 1).toNat).map fun ri => (q, lo + (ri : ℤ))

/-- The axial-to-cartesian conversion of the setup loop (lines 46-47):
`x = radius * (√3 * q + √3/2 * r)`, `y = 0`, `z = radius * (3/2 * r)`. -/
noncomputable def hexPosition (q r : ℤ) : Vec3 :=
  ⟨radius * (Real.sqrt 3 * q + Real.sqrt 3 / 2 * r), 0, radius * (3 / 2 * r)⟩

/-- Claim C4: the hex-grid setup loop with `gridSize = 5` generates exactly
`3*gridSize^2 + 3*gridSize + 1 = 91` coordinate pairs, each a valid axial
coordinate of the hexagon of radius 5 (`|q| ≤ 5`, `|r| ≤ 5`, `|q+r| ≤ 5`),
and places the shape for `(q, r)` at `x = radius*(√3*q + √3/2*r)`,
`z = radius*(3/2*r)`. -/
theorem hex_grid_enumeration :
    (hexCoords gridSize).length = 3 * 5 ^ 2 + 3 * 5 + 1 ∧
    (∀ p ∈ hexCoords gridSize,
      p.1.natAbs ≤ 5 ∧ p.2.natAbs ≤ 5 ∧ (p.1 + p.2).natAbs ≤ 5) ∧
    (∀ p ∈ hexCoords gridSize,
      hexPosition p.1 p.2
        = ⟨radius * (Real.sqrt 3 * p.1 + Real.sqrt 3 / 2 * p.2), 0,
            radius * (3 / 2 * p.2)⟩) := by
  refine ⟨by decide, by decide, fun p _ => rfl⟩

/-- Claim C4 witness: the coordinate `(1, 2)` is enumerated, is a valid
axial coordinate, and is placed by the stated conversion. -/
theorem hex_grid_enumeration_witness :
    (((1 : ℤ), (2 : ℤ)) ∈ hexCoords gridSize) ∧
    (((1 : ℤ), (2 : ℤ)).1.natAbs ≤ 5 ∧ ((1 : ℤ), (2 : ℤ)).2.natAbs ≤ 5 ∧
      (((1 : ℤ), (2 : ℤ)).1 + ((1 : ℤ), (2 : ℤ)).2).natAbs ≤ 5) ∧
    hexPosition 1 2
      = ⟨radius * (Real.sqrt 3 * (1 : ℤ) + Real.sqrt 3 / 2 * (2 : ℤ)), 0,
          radius * (3 / 2 * (2 : ℤ))⟩ := by
  refine ⟨by decide, hex_grid_enumeration.2.1 (1, 2) (by decide),
    hex_grid_enumeration.2.2 (1, 2) (by decide)⟩

/-- The mutable camera state the resize handler touches, together with the
position the frame loop steers. -/
structure Camera where
  fov : ℚ
  aspect : ℚ
  near : ℚ
  far : ℚ
  position : Vec3

/-- The program state visible to the resize handler. -/
structure SceneState where
  camera : Camera
  rendererWidth : ℚ
  rendererHeight : ℚ
  shapes : List ShapeRef
  arcs : List Arc
  shimmerAnimations : List ShimmerAnimation

/-- `handleResize` (lines 349-353): set the camera aspect to
`innerWidth / innerHeight`, refresh the projection matrix (internal to the
camera object, nothing modelled changes), and set the renderer size. -/
def handleResize (innerWidth innerHeight : ℚ) (s : SceneState) : SceneState :=
  { s with
    camera := { s.camera with aspect := innerWidth / innerHeight },
    rendererWidth := innerWidth,
    rendererHeight := innerHeight }

/-- Claim C8: resizing the viewport from 800x600 to 1024x768 sets the
camera aspect to `1024/768` and the renderer size to `(1024, 768)` and
mutates no other program state: shapes, arcs, shimmer list, camera position
and the remaining camera parameters are unchanged. -/
theorem handleResize_effect (s : SceneState)
    (hw : s.rendererWidth = 800) (hh : s.rendererHeight = 600) :
    (handleResize 1024 768 s).camera.aspect = 1024 / 768 ∧
    (handleResize 1024 768 s).rendererWidth = 1024 ∧
    (handleResize 1024 768 s).rendererHeight = 768 ∧
    (handleResize 1024 768 s).shapes = s.shapes ∧
    (handleResize 1024 768 s).arcs = s.arcs ∧
    (handleResize 1024 768 s).shimmerAnimations = s.shimmerAnimations ∧
    (handleResize 1024 768 s).camera.position = s.camera.position ∧
    (handleResize 1024 768 s).camera.fov = s.camera.fov ∧
    (handleResize 1024 768 s).camera.near = s.camera.near ∧
    (handleResize 1024 768 s).camera.far = s.camera.far :=
  ⟨rfl, rfl, rfl, rfl, rfl, rfl, rfl, rfl, rfl, rfl⟩

/-- A concrete scene at viewport 800x600 with the initial camera position
`(0, 0, 8)` (line 231). -/
noncomputable def scene800 : SceneState :=
  { camera := { fov := 75
                aspect := 800 / 600
                near := 1 / 10
                far := 1000
                position := ⟨0, 0, 8⟩ }
    rendererWidth := 800
    rendererHeight := 600
    shapes := []
    arcs := []
    shimmerAnimations := [] }

/-- Claim C8 witness: the resize theorem at the concrete 800x600 scene. -/
theorem handleResize_effect_witness :
    (handleResize 1024 768 scene800).camera.aspect = 1024 / 768 ∧
    (handleResize 1024 768 scene800).rendererWidth = 1024 ∧
    (handleResize 1024 768 scene800).rendererHeight = 768 ∧
    (handleResize 1024 768 scene800).shapes = scene800.shapes ∧
    (handleResize 1024 768 scene800).arcs = scene800.arcs ∧
    (handleResize 1024 768 scene800).shimmerAnimations
        = scene800.shimmerAnimations ∧
    (handleResize 1024 768 scene800).camera.position
        = scene800.camera.position ∧
    (handleResize 1024 768 scene800).camera.fov = scene800.camera.fov ∧
    (handleResize 1024 768 scene800).camera.near = scene800.camera.near ∧
    (handleResize 1024 768 scene800).camera.far = scene800.camera.far :=
  handleResize_effect scene800 rfl rfl

/-- Disposal state of the asynchronously loaded text mesh's resources. -/
structure TextMesh where
  geometryDisposed : Bool
  materialDisposed : Bool
deriving DecidableEq

/-- The component state the unmount cleanup manipulates. -/
structure MountState where
  arcs : List Arc
  arcsDisposed : Bool
  shapesDisposed : Bool
  textMesh : Option TextMesh
  starsDisposed : Bool
  rendererDisposed : Bool
  domAttached : Bool
  pendingFrame : Option ℕ
  resizeListenerAttached : Bool

/-- JS member access on a nullable reference: accessing a member of `null`
throws a `TypeError`. -/
def jsDeref {α : Type} : Option α → Except String α
  | some a => .ok a
  | none => .error "TypeError: cannot read properties of null"

/-- The unmount cleanup (lines 358-392): dispose every arc's visuals,
dispose the shared shape geometry and material, dispose the text mesh only
behind the source's `if (textMesh)` guard (member access on the nullable
reference is fallible), dispose the starfield, dispose the renderer and
detach its canvas, cancel the pending animation frame, and remove the
resize listener. -/
def cleanup (s : MountState) : Except String MountState :=
  let textStep : Except String (Option TextMesh) :=
    if s.textMesh.isSome then
      match jsDeref s.textMesh with
      | .error e => .error e
      | .ok tm => .ok (some { tm with geometryDisposed := true,
                                      materialDisposed := true })
    else .ok s.textMesh
  match textStep with
  | .error e => .error e
  | .ok textMeshAfter =>
      .ok { s with
            arcsDisposed := true,
            shapesDisposed := true,
            textMesh := textMeshAfter,
            starsDisposed := true,
            rendererDisposed := true,
            domAttached := false,
            pendingFrame := none,
            resizeListenerAttached := false }

/-- Claim C9: running the unmount cleanup before the asynchronous font load
has resolved (text mesh still null) does not throw — the `if (textMesh)`
guard skips the null mesh — and cancels the pending animation frame, so no
frame callback is left rescheduled (`pendingFrame = none` in the result). -/
theorem cleanup_null_textMesh_safe (s : MountState) (h : s.textMesh = none) :
    cleanup s = Except.ok
      { s with
        arcsDisposed := true,
        shapesDisposed := true,
        starsDisposed := true,
        rendererDisposed := true,
        domAttached := false,
        pendingFrame := none,
        resizeListenerAttached := false } := by
  simp [cleanup, h]

/-- A concrete mounted state with the font load still pending and an
animation frame scheduled. -/
def mountPending : MountState :=
  { arcs := []
    arcsDisposed := false
    shapesDisposed := false
    textMesh := none
    starsDisposed := false
    rendererDisposed := false
    domAttached := true
    pendingFrame := some 42
    resizeListenerAttached := true }

/-- Claim C9 witness: the cleanup-safety theorem at the concrete pending
state. -/
theorem cleanup_null_textMesh_safe_witness :
    cleanup mountPending = Except.ok
      { mountPending with
        arcsDisposed := true,
        shapesDisposed := true,
        starsDisposed := true,
        rendererDisposed := true,
        domAttached := false,
        pendingFrame := none,
        resizeListenerAttached := false } :=
  cleanup_null_textMesh_safe mountPending rfl

end CubeScene
